import Mathlib

/-!
Verification development for the deoxy hardware actuation layer.

The embedding below models `src/pump.rs` and `src/motor.rs` shallowly in Lean.
Rust `std::time::Duration` values are modeled as natural numbers of
nanoseconds; `Duration` division by an integer is floor division on the total
nanosecond count, and `Duration * u32` is plain multiplication (overflow
panics of astronomically large durations are out of scope for these claims).

The module `pin.rs` is not part of the provided sources; its operations are
modelled from the spec (section 4.1) where a claim needs them, with a
doc comment on each such definition saying so.
-/

namespace Deoxy

/-- Rust Duration, modeled as a natural number of nanoseconds. -/
abbrev Duration := Nat

/-- Modelled from the spec: `pin.rs` is not under `src/`.  Per section 4.1 a
Pin wraps one GPIO line identified by its pin number.  (The `last_level`
bookkeeping the spec mentions is represented, for the pump claims, by the
`Levels` interpretation of the emitted write events below.) -/
structure Pin where
  number : Nat
  deriving DecidableEq, Repr

/-- Modelled from the spec: `pin.rs` is not under `src/`.  Section 6 gives the
error taxonomy `PinError{NotFound, AlreadyInUse, Io(cause)}`. -/
inductive PinError where
  | notFound
  | alreadyInUse
  | ioFailure
  deriving DecidableEq, Repr

/-! ## Pump (`src/pump.rs`)

`Pump::set_direction` in the source calls `set_high`/`set_low` on its four
pins and `thread::sleep`, discarding any result those calls may produce, and
returns `()`.  Its control flow therefore does not depend on write outcomes,
so the faithful embedding returns the updated `Pump` together with the list
of externally observable events (pin writes and sleeps) the call performs, in
order.  Interpretations of that event list (ideal, and failure-aware) follow.
-/

/-- `pump::Direction` from `src/pump.rs`. -/
inductive Direction where
  | forward
  | backward
  deriving DecidableEq, Repr

/-- `pump::Message` from `src/pump.rs`. -/
inductive PumpMessage where
  | perfuse
  | drain
  | stop
  deriving DecidableEq, Repr

/-- The `Pump` struct from `src/pump.rs`: four H-bridge pins and an optional
direction.  The pins' electrical levels are tracked by the event
interpretation below, so only the `direction` field is carried here. -/
structure Pump where
  direction : Option Direction
  deriving DecidableEq, Repr

/-- An externally observable action of a `Pump` method: a write to one of the
four H-bridge pins, or a sleep (in milliseconds). -/
inductive Event where
  | setLow (i : Fin 4)
  | setHigh (i : Fin 4)
  | sleepMs (ms : Nat)
  deriving DecidableEq, Repr

/-- `Pump::is_stopped` from `src/pump.rs`. -/
def Pump.is_stopped (p : Pump) : Bool :=
  p.direction.isNone

/-- The pin pair raised for each direction in `Pump::set_direction`:
`Forward => (0, 3)`, `Backward => (1, 2)`. -/
def directionPins : Direction → Fin 4 × Fin 4
  | .forward => (0, 3)
  | .backward => (1, 2)

/-- The writes performed by the `else` branch of `Pump::set_direction`
(`for i in 0..4 { self.pins[i].set_low(); }`). -/
def stopEvents : List Event :=
  [.setLow 0, .setLow 1, .setLow 2, .setLow 3]

/-- The body of `Pump::set_direction(None)` (reached in the source both
directly and through the recursive `self.stop()` call): lower all four pins
and record `direction = None`. -/
def Pump.stopNow (p : Pump) : Pump × List Event :=
  ({ p with direction := none }, stopEvents)

/-- `Pump::set_direction` from `src/pump.rs`.  For `Some(direction)`: if the
pump is not already stopped, first `self.stop()` (all four pins low), then
`thread::sleep(20 ms)`; then raise the two pins of the requested direction.
For `None`: lower all four pins.  Finally `self.direction = direction` is
assigned unconditionally. -/
def Pump.set_direction (p : Pump) (d : Option Direction) : Pump × List Event :=
  match d with
  | some dir =>
      let (p1, evs1) :=
        if p.is_stopped then (p, ([] : List Event))
        else
          let (ps, es) := p.stopNow
          (ps, es ++ [Event.sleepMs 20])
      let (top, bottom) := directionPins dir
      ({ p1 with direction := some dir },
       evs1 ++ [Event.setHigh top, Event.setHigh bottom])
  | none => p.stopNow

/-- `Pump::perfuse` from `src/pump.rs`. -/
def Pump.perfuse (p : Pump) : Pump × List Event :=
  p.set_direction (some .forward)

/-- `Pump::drain` from `src/pump.rs`. -/
def Pump.drain (p : Pump) : Pump × List Event :=
  p.set_direction (some .backward)

/-- `Pump::stop` from `src/pump.rs`. -/
def Pump.stop (p : Pump) : Pump × List Event :=
  p.set_direction none

/-- The `Handle<Message>` impl for `Pump` in `src/pump.rs`. -/
def Pump.handle (p : Pump) : PumpMessage → Pump × List Event
  | .perfuse => p.perfuse
  | .drain => p.drain
  | .stop => p.stop

/-! ### Interpretation of pump events: pin levels -/

/-- The electrical levels of the four H-bridge pins. -/
structure Levels where
  p0 : Bool
  p1 : Bool
  p2 : Bool
  p3 : Bool
  deriving DecidableEq, Repr

/-- All four pins low. -/
def allLow : Levels := ⟨false, false, false, false⟩

/-- Write level `b` to pin `i`. -/
def Levels.write (l : Levels) (i : Fin 4) (b : Bool) : Levels :=
  match i with
  | ⟨0, _⟩ => { l with p0 := b }
  | ⟨1, _⟩ => { l with p1 := b }
  | ⟨2, _⟩ => { l with p2 := b }
  | ⟨3, _⟩ => { l with p3 := b }

/-- Effect of one event on the pin levels, assuming the hardware write
succeeds. -/
def applyEvent (l : Levels) : Event → Levels
  | .setLow i => l.write i false
  | .setHigh i => l.write i true
  | .sleepMs _ => l

/-- Final pin levels after a list of events. -/
def applyEvents (l : Levels) : List Event → Levels
  | [] => l
  | e :: es => applyEvents (applyEvent l e) es

/-- The sequence of pin-level states after each event of a list: the
externally observable instants during one call. -/
def instants (l : Levels) : List Event → List Levels
  | [] => []
  | e :: es =>
      let l' := applyEvent l e
      l' :: instants l' es

/-- A Forward-direction pin (pin 0 or pin 3) is high. -/
def forwardHigh (l : Levels) : Bool := l.p0 || l.p3

/-- A Backward-direction pin (pin 1 or pin 2) is high. -/
def backwardHigh (l : Levels) : Bool := l.p1 || l.p2

/-- Electrical safety at one instant: not both H-bridge sides energized. -/
def safe (l : Levels) : Bool := !(forwardHigh l && backwardHigh l)

/-- Checks that when the first `setHigh` of an event list is reached, the pin
levels at that moment are all low (the call passed through an all-pins-low
state before energizing a direction).  Vacuously true for lists with no
`setHigh`. -/
def goesLowBeforeHigh (l : Levels) : List Event → Bool
  | [] => true
  | .setHigh _ :: _ => l == allLow
  | e :: es => goesLowBeforeHigh (applyEvent l e) es

/-- Runs a list of pump messages from a pump state and pin levels, checking
at every externally observable instant (the state before each call and the
state after every single event) that the electrical-safety predicate holds,
and that each call reaches an all-pins-low state before its first `setHigh`. -/
def runSafe (p : Pump) (l : Levels) : List PumpMessage → Bool
  | [] => safe l
  | m :: ms =>
      safe l && (instants l (p.handle m).2).all safe
        && goesLowBeforeHigh l (p.handle m).2
        && runSafe (p.handle m).1 (applyEvents l (p.handle m).2) ms

/-- Coherence between the recorded direction and the pin levels: the data
model invariant of section 3 (PumpState): `None` means all pins low,
`Some(d)` means exactly the two pins of `d` are high. -/
def coherent (p : Pump) (l : Levels) : Bool :=
  match p.direction with
  | none => l == allLow
  | some .forward => l == ⟨true, false, false, true⟩
  | some .backward => l == ⟨false, true, true, false⟩

/-! ### Failure-aware interpretation of pump events

`src/pump.rs` discards all results of its `set_high`/`set_low` calls, so the
event list produced by `Pump.set_direction` does not depend on write
outcomes; only the resulting electrical levels do.  Here a write whose index
(counting pin writes from 0 within the call) lies in `failing` has no effect
on the pin level. -/

/-- Pin levels after a list of events when the pin writes whose indices lie
in `failing` fail (leaving the level unchanged); `k` counts writes so far. -/
def applyEventsF (failing : List Nat) (l : Levels) (k : Nat) :
    List Event → Levels
  | [] => l
  | .sleepMs _ :: es => applyEventsF failing l k es
  | e :: es =>
      let l' := if k ∈ failing then l else applyEvent l e
      applyEventsF failing l' (k + 1) es

/-! ### The transition sequence as the spec states it (section 4.4) -/

/-- Event sequence that section 4.4 of the spec prescribes for
`set_direction`, as a function of the current direction and the requested
one: for `Some(d)` from a non-stopped state, all four pins low, then the
interlock sleep of 20 ms, then the two pins of `d` high; for `Some(d)` from
the stopped state, just the two pins of `d` high; for `None`, all four pins
low immediately, with no sleep. -/
def specTransitionEvents (current target : Option Direction) : List Event :=
  match target with
  | some d =>
      let (top, bottom) := directionPins d
      (match current with
       | none => []
       | some _ =>
           [Event.setLow 0, Event.setLow 1, Event.setLow 2, Event.setLow 3,
            Event.sleepMs 20])
      ++ [Event.setHigh top, Event.setHigh bottom]
  | none =>
      [Event.setLow 0, Event.setLow 1, Event.setLow 2, Event.setLow 3]

/-! ## `Pump::new` (`src/pump.rs`)

The body is `Self { direction: None, pins: unimplemented!() }`: the
`direction` field initializer (`None`) is evaluated first, then evaluating
the `pins` field initializer panics unconditionally, before any
`Pin` is claimed. -/

/-- Outcome of running `Pump::new`: which field initializers were evaluated,
which pins were claimed, whether the call panicked, and the value produced
(if any). -/
structure NewOutcome where
  directionEvaluated : Option (Option Direction)
  claimedPins : List Nat
  panicked : Bool
  result : Option Pump
  deriving DecidableEq, Repr

/-- `Pump::new` from `src/pump.rs`: evaluates `None` for the `direction`
field, then panics at `unimplemented!()` while evaluating the `pins` field,
having claimed no pin and produced no `Pump`. -/
def Pump.new (_pins : Nat × Nat × Nat × Nat) : NewOutcome :=
  { directionEvaluated := some none
    claimedPins := []
    panicked := true
    result := none }

/-! ## Motor (`src/motor.rs`) -/

/-- Rust `RangeInclusive<Duration>`: the `signal_range` field type.  The
field names stand for `start()` and `end()`. -/
structure SignalRange where
  rangeStart : Duration
  rangeEnd : Duration
  deriving DecidableEq, Repr

/-- The `Motor` struct from `src/motor.rs`. -/
structure Motor where
  period : Duration
  pin : Pin
  signal_range : SignalRange
  pulse_width : Duration
  main_handle : Option Unit
  deriving DecidableEq, Repr

/-- The `PartialEq` impl for `Motor` in `src/motor.rs`:
`self.pin.number == other.pin.number`. -/
def Motor.eq (a b : Motor) : Bool :=
  a.pin.number == b.pin.number

/-- Modelled from the spec: `pin.rs` is not under `src/`.  Section 4.1:
`set_pwm(period, pulse_width)` fails if `pulse_width > period`, and fails
with an I/O error on a hardware write failure; the hardware outcome is the
explicit `hwFail` input.  (The spec leaves the error kind of the
width-exceeds-period case open; an I/O error is used for both.) -/
def Pin.set_pwm (_p : Pin) (period width : Duration) (hwFail : Bool) :
    Except PinError Unit :=
  if period < width then Except.error PinError.ioFailure
  else if hwFail then Except.error PinError.ioFailure
  else Except.ok ()

deriving instance DecidableEq for Except

/-- Result of one motor mutation: the updated motor, the returned value, and
how many pin writes the call performed. -/
structure WriteResult where
  motor : Motor
  result : Except PinError Unit
  pinWrites : Nat
  deriving DecidableEq, Repr

/-- `Motor::set_pulse_width` from `src/motor.rs`: assigns
`self.pulse_width = width` first, then performs the single pin write
`self.pin.set_pwm(self.period, width)` and returns its result. -/
def Motor.set_pulse_width (m : Motor) (width : Duration) (hwFail : Bool) :
    WriteResult :=
  let m' := { m with pulse_width := width }
  { motor := m'
    result := m'.pin.set_pwm m'.period width hwFail
    pinWrites := 1 }

/-- `Motor::set_angle` from `src/motor.rs`.  `assert!(angle <= 180)` panics
for larger angles (modeled as `none`); otherwise
`step = (end - start) / 180`, `offset = step * angle`, and the call is
`set_pulse_width(start + offset)`. -/
def Motor.set_angle (m : Motor) (angle : Nat) (hwFail : Bool) :
    Option WriteResult :=
  if angle ≤ 180 then
    let start := m.signal_range.rangeStart
    let delta := m.signal_range.rangeEnd - m.signal_range.rangeStart
    let step := delta / 180
    let offset := step * angle
    some (m.set_pulse_width (start + offset) hwFail)
  else
    none

/-- `Motor::close` from `src/motor.rs`: `set_angle(90)`. -/
def Motor.close (m : Motor) (hwFail : Bool) : Option WriteResult :=
  m.set_angle 90 hwFail

/-- `Motor::shut` from `src/motor.rs`: `set_angle(180)`. -/
def Motor.shut (m : Motor) (hwFail : Bool) : Option WriteResult :=
  m.set_angle 180 hwFail

/-- `Motor::open` from `src/motor.rs`: `set_angle(0)`. -/
def Motor.open (m : Motor) (hwFail : Bool) : Option WriteResult :=
  m.set_angle 0 hwFail

/-- Modelled from the spec: `pin.rs` is not under `src/`.  Section 4.1:
`Pin::try_new(pin_number)` fails if the GPIO line cannot be claimed; the
environment's outcome is the explicit `claimFail` input. -/
def Pin.try_new (number : Nat) (claimFail : Option PinError) :
    Except PinError Pin :=
  match claimFail with
  | some e => Except.error e
  | none => Except.ok { number := number }

/-- `Motor::try_new` from `src/motor.rs`: claims the pin (propagating a
`PinError`), then builds the motor with
`pulse_width: *signal_range.start()` and `main_handle: None`. -/
def Motor.try_new (period : Duration) (range : SignalRange)
    (pinNumber : Nat) (claimFail : Option PinError) :
    Except PinError Motor :=
  match Pin.try_new pinNumber claimFail with
  | Except.error e => Except.error e
  | Except.ok pin =>
      Except.ok
        { period := period
          pin := pin
          signal_range := range
          pulse_width := range.rangeStart
          main_handle := none }

/-- Pulse width that the claims' spec sentences prescribe for an angle:
`min + (max - min) * angle / 180`, read left to right on integer
nanosecond durations. -/
def specPulseWidth (range : SignalRange) (angle : Nat) : Duration :=
  range.rangeStart + (range.rangeEnd - range.rangeStart) * angle / 180

/-! ### Concrete sample motors used to evaluate the code at specific
inputs -/

/-- A servo-like motor: period 20 ms, signal range 1 ms to 2 ms (in
nanoseconds), pin 1; its range width 1000000 ns is not divisible by 180. -/
def sampleMotor : Motor :=
  { period := 20000000
    pin := { number := 1 }
    signal_range := { rangeStart := 1000000, rangeEnd := 2000000 }
    pulse_width := 1000000
    main_handle := none }

/-- A motor whose signal range is [0, 179] ns, so that the range width is
one less than 180. -/
def narrowMotor : Motor :=
  { period := 20000000
    pin := { number := 2 }
    signal_range := { rangeStart := 0, rangeEnd := 179 }
    pulse_width := 0
    main_handle := none }

/-- A motor whose signal range is [0, 2] ns. -/
def tinyMotor : Motor :=
  { period := 100
    pin := { number := 3 }
    signal_range := { rangeStart := 0, rangeEnd := 2 }
    pulse_width := 0
    main_handle := none }

/-- A motor whose signal range width (360 ns) is divisible by 180. -/
def wideMotor : Motor :=
  { period := 10000
    pin := { number := 4 }
    signal_range := { rangeStart := 0, rangeEnd := 360 }
    pulse_width := 0
    main_handle := none }

/-! ## Theorems -/

/-- Arithmetic core of the amended C5 close case, over plain naturals. -/
theorem close_width_arith (s e k : Nat) (hle : s ≤ e)
    (hk : e - s = 180 * k) :
    s + (e - s) / 180 * 90 = (s + e) / 2 := by
  omega

/-- Arithmetic core of the amended C5 shut case, over plain naturals. -/
theorem shut_width_arith (s e k : Nat) (hle : s ≤ e)
    (hk : e - s = 180 * k) :
    s + (e - s) / 180 * 180 = e := by
  omega

/-- Coherent states are electrically safe. -/
theorem safe_of_coherent (p : Pump) (l : Levels) (h : coherent p l = true) :
    safe l = true := by
  obtain ⟨dir⟩ := p
  rcases dir with _ | d
  · have hl : l = allLow := eq_of_beq h
    subst hl; decide
  · rcases d with _ | _ <;>
      · have hl := eq_of_beq h
        subst hl; decide

/-- One pump message preserves coherence, and every intermediate instant of
the call is safe and reaches all-low before the first energizing write. -/
theorem coherent_step (p : Pump) (l : Levels) (m : PumpMessage)
    (h : coherent p l = true) :
    ((instants l (p.handle m).2).all safe = true
      ∧ goesLowBeforeHigh l (p.handle m).2 = true)
      ∧ coherent (p.handle m).1 (applyEvents l (p.handle m).2) = true := by
  obtain ⟨dir⟩ := p
  rcases dir with _ | d
  · have hl : l = allLow := eq_of_beq h
    subst hl
    cases m <;> exact ⟨⟨by decide, by decide⟩, by decide⟩
  · rcases d with _ | _ <;>
      · have hl := eq_of_beq h
        subst hl
        cases m <;> exact ⟨⟨by decide, by decide⟩, by decide⟩

/-- Any message list run from a coherent state passes all safety checks. -/
theorem runSafe_of_coherent (p : Pump) (l : Levels)
    (msgs : List PumpMessage) (h : coherent p l = true) :
    runSafe p l msgs = true := by
  induction msgs generalizing p l with
  | nil => exact safe_of_coherent p l h
  | cons m ms ih =>
      obtain ⟨⟨h1, h2⟩, h3⟩ := coherent_step p l m h
      simp only [runSafe, Bool.and_eq_true]
      exact ⟨⟨⟨safe_of_coherent p l h, h1⟩, h2⟩, ih _ _ h3⟩

/-- C1: starting from the stopped state with all pins low, after any
sequence of `perfuse()`/`drain()`/`stop()` calls, at every externally
observable instant (after each individual pin write or sleep of each call)
it is never the case that a Forward-direction pin (0 or 3) and a
Backward-direction pin (1 or 2) are simultaneously high; moreover every call
that energizes a direction passes through an all-pins-low state before its
first energizing write. -/
theorem pump_direction_safety (msgs : List PumpMessage) :
    runSafe { direction := none } allLow msgs = true :=
  runSafe_of_coherent { direction := none } allLow msgs (by decide)

/-- C6: `Pump::set_direction` produces exactly the event sequence the spec
prescribes: for `Some(d)` from a running state, the four pins are lowered,
then a 20 ms sleep, then the two pins of `d` are raised; for `Some(d)` from
the stopped state, the two pins of `d` are raised with no wait; for `None`,
the four pins are lowered immediately with no sleep. -/
theorem set_direction_events_spec (p : Pump) (d : Option Direction) :
    (p.set_direction d).2 = specTransitionEvents p.direction d := by
  obtain ⟨dir⟩ := p
  rcases dir with _ | _ | _ <;> rcases d with _ | _ | _ <;> decide

/-- C7 evaluation: with the pump running Forward (pins 0 and 3 high),
calling `set_direction(Some(Backward))` while the de-energizing write to pin
0 fails (write index 0 of the call) still records
`direction = Some(Backward)`, yet pin 0 (a Forward pin) remains high
alongside the newly raised Backward pins — an electrically unsafe state that
the unit-returning `set_direction` reports to nobody. -/
theorem set_direction_swallows_write_failure :
    (({ direction := some Direction.forward } : Pump).set_direction
        (some Direction.backward)).1.direction = some Direction.backward
      ∧ applyEventsF [0] ⟨true, false, false, true⟩ 0
          (({ direction := some Direction.forward } : Pump).set_direction
            (some Direction.backward)).2
          = ⟨true, true, true, false⟩
      ∧ safe ⟨true, true, true, false⟩ = false := by
  decide

/-- C10: `Pump::new` panics unconditionally for every input pin array: the
`direction` field initializer is evaluated to `None` first, then
`unimplemented!()` panics before any pin is claimed, so no `Pump` value is
ever produced. -/
theorem pump_new_always_panics (pins : Nat × Nat × Nat × Nat) :
    Pump.new pins
      = { directionEvaluated := some none
          claimedPins := []
          panicked := true
          result := none } :=
  rfl

/-- C9: two `Motor` values are equal exactly when their pin numbers are
equal; no other field participates in the comparison. -/
theorem motor_eq_iff_pin_number (a b : Motor) :
    Motor.eq a b = true ↔ a.pin.number = b.pin.number := by
  simp [Motor.eq]

/-- C3 evaluation: `set_angle(181)` hits `assert!(angle <= 180)` and panics
(modeled as `none`): the process is terminated by the assertion instead of a
returned error. -/
theorem set_angle_181_panics :
    sampleMotor.set_angle 181 false = none := by
  decide

/-- C4 counterexample: on `sampleMotor` (stored `pulse_width = 1000000`),
`set_pulse_width(1500000)` with a failing hardware write returns a
`PinError`, yet the stored `pulse_width` field has been changed to the
requested 1500000 — not left unchanged as the claim states. -/
theorem set_pulse_width_failure_changes_field :
    (sampleMotor.set_pulse_width 1500000 true).result
        = Except.error PinError.ioFailure
      ∧ sampleMotor.pulse_width = 1000000
      ∧ (sampleMotor.set_pulse_width 1500000 true).motor.pulse_width
          = 1500000 := by
  decide

/-- C4 amended: `set_pulse_width(width)` always stores the requested width
in `pulse_width` — before the pin write, hence also when the write fails —
and performs exactly one pin write; in particular, on success `pulse_width`
equals the requested width. -/
theorem set_pulse_width_always_stores_width (m : Motor) (w : Duration)
    (hw : Bool) :
    (m.set_pulse_width w hw).motor.pulse_width = w
      ∧ (m.set_pulse_width w hw).pinWrites = 1 :=
  ⟨rfl, rfl⟩

/-- C2 counterexample: on `narrowMotor` (range [0, 179]), `set_angle(180)`
stores pulse width 0, while the claim's formula
`min + (max - min) * angle / 180` gives 179. -/
theorem set_angle_differs_from_spec_formula :
    (narrowMotor.set_angle 180 false).map (fun r => r.motor.pulse_width)
        = some 0
      ∧ specPulseWidth narrowMotor.signal_range 180 = 179
      ∧ (0 : Duration) ≠ 179 := by
  decide

/-- C2 amended: for angles `a ≤ b ≤ 180`, `set_angle` stores exactly
`min + ((max - min) / 180) * angle` (the per-degree step is truncated
first), and the resulting pulse width is monotonically non-decreasing in the
angle. -/
theorem set_angle_width_and_monotone (m : Motor) (a b : Nat)
    (hwa hwb : Bool) (hab : a ≤ b) (hb : b ≤ 180) :
    (m.set_angle a hwa).map (fun r => r.motor.pulse_width)
        = some (m.signal_range.rangeStart
            + (m.signal_range.rangeEnd - m.signal_range.rangeStart) / 180
              * a)
      ∧ (m.set_angle b hwb).map (fun r => r.motor.pulse_width)
          = some (m.signal_range.rangeStart
              + (m.signal_range.rangeEnd - m.signal_range.rangeStart) / 180
                * b)
      ∧ m.signal_range.rangeStart
            + (m.signal_range.rangeEnd - m.signal_range.rangeStart) / 180
              * a
          ≤ m.signal_range.rangeStart
            + (m.signal_range.rangeEnd - m.signal_range.rangeStart) / 180
              * b := by
  have ha : a ≤ 180 := le_trans hab hb
  refine ⟨?_, ?_, ?_⟩
  · simp [Motor.set_angle, ha, Motor.set_pulse_width]
  · simp [Motor.set_angle, hb, Motor.set_pulse_width]
  · exact Nat.add_le_add_left (Nat.mul_le_mul_left _ hab) _

/-- Witness for the amended C2 theorem at `sampleMotor`, angles 30 and 60. -/
theorem set_angle_width_and_monotone_witness :
    (30 : Nat) ≤ 60 ∧ (60 : Nat) ≤ 180
      ∧ ((sampleMotor.set_angle 30 false).map (fun r => r.motor.pulse_width)
            = some (sampleMotor.signal_range.rangeStart
                + (sampleMotor.signal_range.rangeEnd
                    - sampleMotor.signal_range.rangeStart) / 180 * 30)
          ∧ (sampleMotor.set_angle 60 false).map
                (fun r => r.motor.pulse_width)
              = some (sampleMotor.signal_range.rangeStart
                  + (sampleMotor.signal_range.rangeEnd
                      - sampleMotor.signal_range.rangeStart) / 180 * 60)
          ∧ sampleMotor.signal_range.rangeStart
                + (sampleMotor.signal_range.rangeEnd
                    - sampleMotor.signal_range.rangeStart) / 180 * 30
              ≤ sampleMotor.signal_range.rangeStart
                + (sampleMotor.signal_range.rangeEnd
                    - sampleMotor.signal_range.rangeStart) / 180 * 60) :=
  ⟨by decide, by decide,
   set_angle_width_and_monotone sampleMotor 30 60 false false (by decide)
     (by decide)⟩

/-- C5 counterexample: on `tinyMotor` (range [0, 2]), a successful `close()`
stores pulse width 0, not the midpoint `(min + max) / 2 = 1`, and a
successful `shut()` stores 0, not the maximum 2. -/
theorem close_shut_differ_from_claim :
    (tinyMotor.close false).map (fun r => r.motor.pulse_width) = some 0
      ∧ (tinyMotor.signal_range.rangeStart
          + tinyMotor.signal_range.rangeEnd) / 2 = 1
      ∧ (tinyMotor.shut false).map (fun r => r.motor.pulse_width) = some 0
      ∧ tinyMotor.signal_range.rangeEnd = 2 := by
  decide

/-- C5 amended: a successful `open()` always stores `min`; when
`min ≤ max` and 180 divides the range width `max - min` (in nanoseconds),
`close()` stores `(min + max) / 2` and `shut()` stores `max`; in general
`close()` stores `min + ((max - min) / 180) * 90` and `shut()` stores
`min + ((max - min) / 180) * 180` with truncating division. -/
theorem open_close_shut_widths (m : Motor) (hw : Bool)
    (hle : m.signal_range.rangeStart ≤ m.signal_range.rangeEnd)
    (hdvd : 180 ∣ (m.signal_range.rangeEnd - m.signal_range.rangeStart)) :
    (m.open hw).map (fun r => r.motor.pulse_width)
        = some m.signal_range.rangeStart
      ∧ (m.close hw).map (fun r => r.motor.pulse_width)
          = some ((m.signal_range.rangeStart
              + m.signal_range.rangeEnd) / 2)
      ∧ (m.shut hw).map (fun r => r.motor.pulse_width)
          = some m.signal_range.rangeEnd := by
  obtain ⟨k, hk⟩ := hdvd
  have hclose := close_width_arith m.signal_range.rangeStart
    m.signal_range.rangeEnd k hle hk
  have hshut := shut_width_arith m.signal_range.rangeStart
    m.signal_range.rangeEnd k hle hk
  refine ⟨?_, ?_, ?_⟩ <;>
    simp [Motor.open, Motor.close, Motor.shut, Motor.set_angle,
      Motor.set_pulse_width, hclose, hshut]

/-- Witness for the amended C5 theorem at `wideMotor` (range [0, 360]). -/
theorem open_close_shut_widths_witness :
    wideMotor.signal_range.rangeStart ≤ wideMotor.signal_range.rangeEnd
      ∧ 180 ∣ (wideMotor.signal_range.rangeEnd
          - wideMotor.signal_range.rangeStart)
      ∧ ((wideMotor.open false).map (fun r => r.motor.pulse_width)
            = some wideMotor.signal_range.rangeStart
          ∧ (wideMotor.close false).map (fun r => r.motor.pulse_width)
              = some ((wideMotor.signal_range.rangeStart
                  + wideMotor.signal_range.rangeEnd) / 2)
          ∧ (wideMotor.shut false).map (fun r => r.motor.pulse_width)
              = some wideMotor.signal_range.rangeEnd) :=
  ⟨by decide, by decide,
   open_close_shut_widths wideMotor false (by decide) (by decide)⟩

/-- C8 evaluation: a successful `Motor::try_new` (period 10000 ns, range
[0, 360] ns, pin 4) constructs exactly `wideMotor`, whose `pulse_width` is
0, the range minimum — the width `open()` (angle 0) drives to — while the
closed position that `close()` (angle 90) drives to is 180, the midpoint;
so the constructed motor is not in the closed position. -/
theorem try_new_initializes_to_range_min :
    Motor.try_new 10000 { rangeStart := 0, rangeEnd := 360 } 4 none
        = Except.ok wideMotor
      ∧ wideMotor.pulse_width = 0
      ∧ (wideMotor.close false).map (fun r => r.motor.pulse_width)
          = some 180
      ∧ (0 : Duration) ≠ 180
      ∧ (0 : Duration) ≠ (0 + 360) / 2 := by
  decide

end Deoxy
